import Mathlib

/-!
Shallow embedding of the PythonTA reporter core
(`src/python_ta/reporters/core.py` and `src/python_ta/reporters/plain_reporter.py`).

Python `str` values are modelled as Lean `String`, Python lists as Lean `List`,
the `defaultdict(list)` mapping from file names to message lists as a total
function `String → List Msg` (a `defaultdict` access that merely inserts the
default empty list is invisible at this level of abstraction), and fallible
file I/O as an explicit `FileSystem` record together with `Except` results
(an `Except.error` value models a Python exception propagating to the caller).
`node_printers.py` (the `render_message` planner and the `LineType` enum) is
not part of the sources; those two are modelled from the specification and
marked as such below.
-/

/-- A pylint `Message`: the immutable diagnostic record supplied by the host
linting engine (rule identifier `msg_id`, symbolic name, message text, file
path, 1-based line, column, optional end line/column). -/
structure Message where
  msg_id : String
  symbol : String
  msg : String
  path : String
  line : Nat
  column : Nat
  end_line : Option Nat
  end_column : Option Nat
deriving DecidableEq, Repr

/-- An astroid `NodeNG` reference: an opaque read-only handle into the parsed
tree; the reporter never inspects its contents, so a bare identifier suffices. -/
structure NodeNG where
  nid : Nat
deriving DecidableEq, Repr

/-- A message as stored in the reporter's lists: either a plain pylint
`Message`, or a `NewMessage` wrapper carrying the wrapped message, the resolved
node and the rendered snippet.  The wrapped message may itself already be a
`NewMessage` (nothing in `core.py` prevents double wrapping). -/
inductive Msg where
  | base : Message → Msg
  | newMessage : Msg → NodeNG → String → Msg
deriving DecidableEq, Repr

/-- Attribute lookup `msg_id`: `NewMessage.__getattr__` delegates to the
wrapped message. -/
def Msg.msg_id : Msg → String
  | .base m => m.msg_id
  | .newMessage m _ _ => m.msg_id

/-- Attribute lookup `symbol`, delegating through `NewMessage.__getattr__`. -/
def Msg.symbol : Msg → String
  | .base m => m.symbol
  | .newMessage m _ _ => m.symbol

/-- Attribute lookup `msg` (message text), delegating through `__getattr__`. -/
def Msg.msg : Msg → String
  | .base m => m.msg
  | .newMessage m _ _ => m.msg

/-- Attribute lookup `path`, delegating through `__getattr__`. -/
def Msg.path : Msg → String
  | .base m => m.path
  | .newMessage m _ _ => m.path

/-- Attribute lookup `line`, delegating through `__getattr__`. -/
def Msg.line : Msg → Nat
  | .base m => m.line
  | .newMessage m _ _ => m.line

/-- Attribute lookup `column`, delegating through `__getattr__`. -/
def Msg.column : Msg → Nat
  | .base m => m.column
  | .newMessage m _ _ => m.column

/-- Attribute lookup `end_line`, delegating through `__getattr__`. -/
def Msg.end_line : Msg → Option Nat
  | .base m => m.end_line
  | .newMessage m _ _ => m.end_line

/-- Attribute lookup `end_column`, delegating through `__getattr__`. -/
def Msg.end_column : Msg → Option Nat
  | .base m => m.end_column
  | .newMessage m _ _ => m.end_column

/-- Attribute lookup `snippet`: an instance attribute of `NewMessage`.  A plain
`Message` has no such attribute (Python would raise `AttributeError`; the lists
rendered by the plain reporter contain only augmented messages, so the `""`
value for `base` is never observed by the rendering claims). -/
def Msg.snippet : Msg → String
  | .base _ => ""
  | .newMessage _ _ s => s

/-- `NewMessage.to_dict` fields, for JSON output. -/
structure MessageDict where
  msg_id : String
  symbol : String
  msg : String
  path : String
  line : Nat
  column : Nat
  end_line : Option Nat
  end_column : Option Nat
  snippet : String
  line_end : Option Nat
  column_end : Option Nat
deriving DecidableEq, Repr

/-- `NewMessage.to_dict` in the ordinary case where the wrapped message is a
plain pylint `Message`: `vars(self.message)` spreads the message's own fields,
then `snippet` is added, and the deprecated `line_end` / `column_end` keys
duplicate `self.message.end_line` / `self.message.end_column`. -/
def to_dict (message : Message) (snippet : String) : MessageDict :=
  { msg_id := message.msg_id
    symbol := message.symbol
    msg := message.msg
    path := message.path
    line := message.line
    column := message.column
    end_line := message.end_line
    end_column := message.end_column
    snippet := snippet
    line_end := message.end_line
    column_end := message.end_column }

/-- `NO_SNIPPET`: messages without a source code line to highlight
(`core.py`). -/
def NO_SNIPPET : List String :=
  [ "invalid-name"
  , "unknown-option-value"
  , "module-name-violation"
  , "config-parse-error"
  , "useless-option-value"
  , "unrecognized-option" ]

/-- `ERROR_CHECKS`: the fixed classification set deciding the blocking-errors
bucket (`core.py`). -/
def ERROR_CHECKS : List String :=
  [ "used-before-assignment"
  , "undefined-variable"
  , "undefined-loop-variable"
  , "not-in-loop"
  , "return-outside-function"
  , "duplicate-key"
  , "unreachable"
  , "pointless-statement"
  , "pointless-string-statement"
  , "no-member"
  , "not-callable"
  , "assignment-from-no-return"
  , "assignment-from-none"
  , "no-value-for-parameter"
  , "too-many-function-args"
  , "invalid-sequence-index"
  , "invalid-slice-index"
  , "invalid-slice-step"
  , "invalid-unary-operand-type"
  , "unsupported-binary-operation"
  , "unsupported-membership-test"
  , "unsubscriptable-object"
  , "unbalanced-tuple-unpacking"
  , "unbalanced-dict-unpacking"
  , "unpacking-non-sequence"
  , "function-redefined"
  , "duplicate-argument-name"
  , "import-error"
  , "no-name-in-module"
  , "non-parent-init-called"
  , "access-member-before-definition"
  , "method-hidden"
  , "unexpected-special-method-signature"
  , "inherit-non-class"
  , "duplicate-except"
  , "bad-except-order"
  , "raising-bad-type"
  , "raising-non-exception"
  , "catching-non-exception"
  , "bad-indentation"
  , "E0001"
  , "unexpected-keyword-arg"
  , "not-an-iterable"
  , "nonexistent-operator"
  , "invalid-length-returned"
  , "abstract-method"
  , "self-cls-assignment"
  , "dict-iter-missing-items"
  , "super-without-brackets"
  , "modified-iterating-list"
  , "modified-iterating-dict"
  , "modified-iterating-set"
  , "missing-return-statement"
  , "invalid-range-index"
  , "one-iteration"
  , "possibly-undefined"
  , "incompatible-argument-type"
  , "incompatible-assignment"
  , "list-item-type-mismatch"
  , "unsupported-operand-types"
  , "union-attr-error"
  , "dict-item-type-mismatch"
  , "forbidden-import"
  , "forbidden-python-syntax"
  , "forbidden-top-level-code" ]

/-- A Python `slice` object as produced by the snippet planner: optional start
and stop bounds (non-negative; the spec constrains planner slices to
`0 ≤ start ≤ end ≤ len(line)`). -/
structure Slice where
  start : Option Nat
  stop : Option Nat
deriving DecidableEq, Repr

/-- Modelled from the spec: the `LineType` enum lives in `node_printers.py`,
which is not among the sources; the spec fixes the closed role set
ERROR, CONTEXT, DOCSTRING, OTHER. -/
inductive LineType where
  | ERROR
  | CONTEXT
  | OTHER
  | DOCSTRING
deriving DecidableEq, Repr

/-- Python `text[:n]` for `0 ≤ n` (clamped, never raises). -/
def pyTake (text : String) (n : Nat) : String :=
  String.mk (text.toList.take n)

/-- Python `text[n:]` for `0 ≤ n` (clamped, never raises). -/
def pyDrop (text : String) (n : Nat) : String :=
  String.mk (text.toList.drop n)

/-- Python `text[s:e]` for `0 ≤ s`, `0 ≤ e` (clamped, empty when `s ≥ e`,
never raises). -/
def pySlice (text : String) (s e : Nat) : String :=
  String.mk ((text.toList.take e).drop s)

/-- Python `text[slice_]` for a slice with non-negative (or absent) bounds:
an absent start behaves as 0, an absent stop as `len(text)`. -/
def pySliceOpt (text : String) (sl : Slice) : String :=
  pySlice text (sl.start.getD 0) (sl.stop.getD text.length)

/-- `start_col = slice_.start or 0` in `_add_line`: Python `or` yields 0 both
when the start is `None` and when it is the (falsy) integer 0. -/
def errStartCol (sl : Slice) : Nat :=
  match sl.start with
  | none => 0
  | some s => if s = 0 then 0 else s

/-- `end_col = slice_.stop or len(text)` in `_add_line`: Python `or` treats a
0 stop as falsy, so a literal stop of 0 yields `len(text)` just as `None`
does. -/
def errEndCol (sl : Slice) (text : String) : Nat :=
  match sl.stop with
  | none => text.length
  | some e => if e = 0 then text.length else e

/-- `PythonTaReporter._colourify`: with the base reporter's empty
`_COLOURING` table it returns the text unchanged (identity colouring); the
plain reporter inherits this. -/
def colourify (_colour_class : String) (text : String) : String :=
  text

/-- Python `"{:>3}".format(lineno)`: decimal rendering right-aligned to width
3 with spaces (longer renderings are not truncated). -/
def rightAlign3 (s : String) : String :=
  String.mk (List.replicate (3 - s.length) ' ') ++ s

/-- Python `text.lstrip(" ")`. -/
def pyLstripSpace (text : String) : String :=
  String.mk (text.toList.dropWhile (fun c => c == ' '))

/-- `PythonTaReporter._add_line_number`: a fixed-width gutter of
`_PRE_LINE_NUM_SPACES = 2` spaces, the right-aligned number (or
`_NUM_LENGTH_SPACES = 3` blanks when the line number is `None`), coloured per
line role, then `_AFTER_NUM_SPACES = 2` spaces.  With the four-role `LineType`
every role hits one of the four explicit branches. -/
def addLineNumber (lineno : Option Nat) (linetype : LineType) : String :=
  let pre_spaces := "  "
  let spaces := "  "
  let number :=
    match lineno with
    | some n => rightAlign3 (toString n)
    | none => "   "
  match linetype with
  | .ERROR => pre_spaces ++ colourify "gbold-line" number ++ spaces
  | .CONTEXT => pre_spaces ++ colourify "grey-line" number ++ spaces
  | .OTHER => pre_spaces ++ colourify "grey-line" number ++ spaces
  | .DOCSTRING => pre_spaces ++ colourify "black-line" number ++ spaces

/-- `PythonTaReporter._add_line`: format one source line of a snippet.  For
the ERROR role the pre-span text (if non-empty, per the Python truthiness
check) is coloured "black", the sliced span `text[slice_]` is highlighted, and
the post-span text (if non-empty) is coloured "black"; CONTEXT is grey;
OTHER is plain; DOCSTRING keeps the leading-space alignment and highlights the
trimmed text.  A `_BREAK` newline is appended. -/
def addLine (lineno : Option Nat) (linetype : LineType) (sl : Slice) (text : String) : String :=
  let snippet := addLineNumber lineno linetype
  let snippet :=
    match linetype with
    | .ERROR =>
      let start_col := errStartCol sl
      let end_col := errEndCol sl text
      let snippet :=
        snippet ++ (if pyTake text start_col ≠ "" then colourify "black" (pyTake text start_col) else "")
      let snippet := snippet ++ colourify "highlight" (pySliceOpt text sl)
      snippet ++ (if pyDrop text end_col ≠ "" then colourify "black" (pyDrop text end_col) else "")
    | .CONTEXT => snippet ++ colourify "grey" text
    | .OTHER => snippet ++ text
    | .DOCSTRING =>
      let space_c := text.length - (pyLstripSpace text).length
      snippet ++ String.mk (List.replicate space_c ' ') ++ colourify "highlight" (pyLstripSpace text)
  snippet ++ "\n"

/-- One record of a snippet plan: `(lineno, slice_, line_type, text)` as
yielded by `render_message`. -/
structure SnippetRecord where
  lineno : Option Nat
  slice : Slice
  linetype : LineType
  text : String
deriving DecidableEq, Repr

/-- Modelled from the spec: `node_printers.render_message` (the snippet
planner) is not among the sources.  Per the spec's default policy the
diagnostic's own line carries the ERROR role with the diagnostic's column span
(slice start = column, slice end = end-column, absent if the diagnostic has
none); a line number outside the source buffer yields no records.  Only the
delegated message attributes are read. -/
def render_message (msg : Msg) (_node : NodeNG) (source_lines : List String) :
    List SnippetRecord :=
  match source_lines.get? (msg.line - 1) with
  | some text => [⟨some msg.line, ⟨some msg.column, msg.end_column⟩, .ERROR, text⟩]
  | none => []

/-- `PythonTaReporter._build_snippet`: concatenate `_add_line` over the records
produced by `render_message`. -/
def build_snippet (source_lines : List String) (msg : Msg) (node : NodeNG) : String :=
  (render_message msg node source_lines).foldl
    (fun code_snippet r => code_snippet ++ addLine r.lineno r.linetype r.slice r.text) ""

/-- Pointwise update of the message mapping, modelling assignment into the
`defaultdict`. -/
def updateMap (f : String → List Msg) (k : String) (v : List Msg) : String → List Msg :=
  fun k' => if k' = k then v else f k'

/-- The mutable state of a `PythonTaReporter`: the `messages` mapping
(`defaultdict(list)`, modelled as a total function defaulting to `[]`), the
source buffer, the module name and the current file. -/
structure ReporterState where
  messages : String → List Msg
  source_lines : List String
  module_name : String
  current_file : String

/-- `PythonTaReporter.__init__`. -/
def initReporter : ReporterState :=
  { messages := fun _ => [], source_lines := [], module_name := "", current_file := "" }

/-- `PythonTaReporter.handle_message`: append the message to the current
file's list. -/
def handle_message (st : ReporterState) (msg : Msg) : ReporterState :=
  { st with
    messages := updateMap st.messages st.current_file (st.messages st.current_file ++ [msg]) }

/-- Python `s.startswith(pre)`: `pre` is a prefix of the character sequence
of `s`. -/
def pyStartsWith (s pre : String) : Bool :=
  pre.toList.isPrefixOf s.toList

/-- The snippet computed by `handle_node` for the matched message: forced
empty when the symbol is in `NO_SNIPPET` or the message text starts with
"Invalid module" (`msg.msg.startswith`), otherwise built by
`_build_snippet`. -/
def handleNodeSnippet (st : ReporterState) (msg : Msg) (node : NodeNG) : String :=
  if NO_SNIPPET.contains msg.symbol || pyStartsWith msg.msg "Invalid module" then ""
  else build_snippet st.source_lines msg node

/-- `PythonTaReporter.handle_node`: if the current file's list is non-empty
and its last message's `msg_id` equals the message definition's `msgid`,
replace that last message with `NewMessage(msg, node, snippet)`; otherwise do
nothing (the `defaultdict` access inserts at most the default empty list,
which the total-function model absorbs). -/
def handle_node (st : ReporterState) (msgid : String) (node : NodeNG) : ReporterState :=
  let curr_messages := st.messages st.current_file
  match curr_messages.getLast? with
  | some last =>
    if last.msg_id = msgid then
      { st with
        messages := updateMap st.messages st.current_file
          (curr_messages.dropLast ++ [Msg.newMessage last node (handleNodeSnippet st last node)]) }
    else st
  | none => st

/-- The bucket test of `group_messages`:
`msg.msg_id in ERROR_CHECKS or msg.symbol in ERROR_CHECKS`. -/
def errorCheck (msg : Msg) : Bool :=
  ERROR_CHECKS.contains msg.msg_id || ERROR_CHECKS.contains msg.symbol

/-- Append into a `defaultdict(list)` modelled as an insertion-ordered
association list: extend the existing key's list, or add a new key at the
end (Python dict iteration order is insertion order of first occurrence). -/
def appendGroup (g : List (String × List Msg)) (k : String) (m : Msg) :
    List (String × List Msg) :=
  match g with
  | [] => [(k, [m])]
  | (k', l) :: rest =>
    if k' = k then (k', l ++ [m]) :: rest else (k', l) :: appendGroup rest k m

/-- Lookup in an association list grouping, defaulting to `[]` (a
`defaultdict(list)` read). -/
def lookupD (g : List (String × List Msg)) (k : String) : List Msg :=
  match g with
  | [] => []
  | (k', l) :: rest => if k' = k then l else lookupD rest k

/-- `PythonTaReporter.group_messages`: partition the messages into the
error/style buckets keyed by `msg_id`, preserving insertion order. -/
def group_messages (messages : List Msg) :
    List (String × List Msg) × List (String × List Msg) :=
  messages.foldl
    (fun acc msg =>
      if errorCheck msg then (appendGroup acc.1 msg.msg_id msg, acc.2)
      else (acc.1, appendGroup acc.2 msg.msg_id msg))
    ([], [])

/-- The configured `pyta_number_of_messages`: a natural number or
`float("inf")`. -/
inductive MaxMessages where
  | fin : Nat → MaxMessages
  | inf : MaxMessages
deriving DecidableEq, Repr

/-- Python `str(...)` of the configured maximum, used in the truncation
note. -/
def MaxMessages.str : MaxMessages → String
  | .fin m => toString m
  | .inf => "inf"

/-- The break test of the occurrence loop in `_colour_messages_by_type`:
`max_messages != 0 and i == max_messages` (an integer index never equals
`float("inf")`). -/
def breakCond : MaxMessages → Nat → Bool
  | .fin m, i => m != 0 && i == m
  | .inf, _ => false

/-- The truncation-note test of the group header:
`max_messages != 0 and max_messages != float("inf") and
max_messages < len(messages[msg_id])`. -/
def noteCond : MaxMessages → Nat → Bool
  | .fin m, n => m != 0 && decide (m < n)
  | .inf, _ => false

/-- The messages actually rendered by the `for i, msg in enumerate(...)` loop
of `_colour_messages_by_type`, starting at index `i`: the loop breaks as soon
as `breakCond` holds. -/
def loopMessages (mx : MaxMessages) : Nat → List Msg → List Msg
  | _, [] => []
  | i, m :: rest => if breakCond mx i then [] else m :: loopMessages mx (i + 1) rest

/-- Python `msg.msg.split("\n")[0]`: the message text up to the first line
break. -/
def firstMsgLine (s : String) : String :=
  String.mk (s.toList.takeWhile (fun c => c != '\n'))

/-- `messages[msg_id][0].symbol` (group lists produced by `group_messages` are
never empty; an empty list would raise `IndexError` in Python). -/
def firstSymbol (msgs : List Msg) : String :=
  match msgs with
  | [] => ""
  | m :: _ => m.symbol

/-- The body rendered for one occurrence in `_colour_messages_by_type`: two
spaces, the bold `[Line n] text` header with the message text truncated at its
first line break, a break, the stored snippet, and a break. -/
def renderOccurrence (msg : Msg) : String :=
  "  " ++ colourify "bold" ("[Line " ++ toString msg.line ++ "] " ++ firstMsgLine msg.msg) ++ "\n"
    ++ msg.snippet ++ "\n"

/-- The group header rendered by `_colour_messages_by_type`: bold rule
identifier and symbol, the occurrence count, and the truncation note when
`noteCond` holds. -/
def groupHeader (mx : MaxMessages) (msg_id : String) (msgs : List Msg) : String :=
  colourify "bold" msg_id
    ++ colourify "bold" (" (" ++ firstSymbol msgs ++ ")  ")
    ++ "Number of occurrences: " ++ toString msgs.length ++ "."
    ++ (if noteCond mx msgs.length then " (First " ++ mx.str ++ " shown)." else "")
    ++ "\n"

/-- `PlainReporter._colour_messages_by_type`: concatenate, per group in
iteration (= insertion) order, the group header followed by the occurrence
bodies the loop renders before breaking. -/
def colour_messages_by_type (mx : MaxMessages) (groups : List (String × List Msg)) : String :=
  groups.foldl
    (fun result g =>
      result ++ groupHeader mx g.1 g.2
        ++ String.join ((loopMessages mx 0 g.2).map renderOccurrence))
    ""

/-- `PlainReporter.code_err_title`. -/
def code_err_title : String := "=== Code errors/forbidden usage (fix: high priority) ==="

/-- `PlainReporter.style_err_title`. -/
def style_err_title : String := "=== Style/convention errors (fix: before submission) ==="

/-- `PlainReporter.no_err_message` (`_BREAK * 2` appended). -/
def no_err_message : String := "No problems detected, good job!" ++ "\n" ++ "\n"

/-- `PlainReporter.print_messages`: the report string written via `writeln`.
The generation timestamp (`datetime.now()`) and the configured
`pyta_number_of_messages` are passed in explicitly. -/
def print_messages (st : ReporterState) (mx : MaxMessages) (date_time : String)
    (level : String) : String :=
  let grouped := group_messages (st.messages st.current_file)
  let result := "PyTA Report for: " ++ colourify "bold" st.current_file ++ "\n"
  let result := result ++ date_time ++ "\n"
  let result := result ++ colourify "code-heading" (code_err_title ++ "\n")
  let messages_result := colour_messages_by_type mx grouped.1
  let result := result ++ (if messages_result ≠ "" then messages_result else no_err_message)
  if level = "all" then
    let result := result ++ colourify "style-heading" (style_err_title ++ "\n")
    let messages_result := colour_messages_by_type mx grouped.2
    result ++ (if messages_result ≠ "" then messages_result else no_err_message)
  else result

/-- The environment `on_set_current_module` interacts with:
`resolve` models `Path(os.path.expandvars(module)).expanduser()`,
`pathExists` models `Path.exists`, and `readLines` models
`open(filepath, encoding="utf-8").readlines()` — an `Except.error` result
models the `OSError`/`UnicodeDecodeError` the call can raise. -/
structure FileSystem where
  resolve : String → String
  pathExists : String → Bool
  readLines : String → Except Unit (List String)

/-- Python `line.rstrip("\r\n")`: remove trailing characters drawn from the
set containing carriage return and newline. -/
def rstripLineEnd (s : String) : String :=
  String.mk (s.toList.reverse.dropWhile (fun c => c == '\r' || c == '\n')).reverse

/-- `PythonTaReporter.on_set_current_module`: resolve a possible config path
from the module name, fall back to it when `filepath` is `None`, return
unchanged when no path results, otherwise update `module_name` /
`current_file` and load the source buffer.  The `open` call is not guarded:
a read failure propagates as an exception (`Except.error`) with the state
already partially updated.  (`if self.current_file not in self.messages:`
inserts the defaultdict's default empty list, invisible in the total-function
model of `messages`.) -/
def on_set_current_module (fs : FileSystem) (st : ReporterState) (module : String)
    (filepath : Option String) : Except ReporterState ReporterState :=
  let possible_config_path := fs.resolve module
  let filepath :=
    if fs.pathExists possible_config_path && filepath.isNone then some possible_config_path
    else filepath
  match filepath with
  | none => .ok st
  | some fp =>
    let st := { st with module_name := module, current_file := fp }
    match fs.readLines fp with
    | .ok lines => .ok { st with source_lines := lines.map rstripLineEnd }
    | .error _ => .error st

/-! ### Helper lemmas -/

theorem handle_node_eq_of_match (st : ReporterState) (msgid : String) (node : NodeNG)
    (last : Msg) (h1 : (st.messages st.current_file).getLast? = some last)
    (h2 : last.msg_id = msgid) :
    handle_node st msgid node =
      { st with
        messages := updateMap st.messages st.current_file
          ((st.messages st.current_file).dropLast
            ++ [Msg.newMessage last node (handleNodeSnippet st last node)]) } := by
  simp only [handle_node]
  rw [h1]
  simp [h2]

theorem handle_node_eq_of_no_match (st : ReporterState) (msgid : String) (node : NodeNG)
    (h : ∀ last, (st.messages st.current_file).getLast? = some last → last.msg_id ≠ msgid) :
    handle_node st msgid node = st := by
  simp only [handle_node]
  cases h1 : (st.messages st.current_file).getLast? with
  | none => rfl
  | some last => simp [h last h1]

theorem updateMap_self (f : String → List Msg) (k : String) (v : List Msg) :
    updateMap f k v k = v := by
  simp [updateMap]

theorem handle_node_source_lines (st : ReporterState) (msgid : String) (node : NodeNG) :
    (handle_node st msgid node).source_lines = st.source_lines := by
  simp only [handle_node]
  cases (st.messages st.current_file).getLast? with
  | none => rfl
  | some last =>
    by_cases h : last.msg_id = msgid <;> simp [h]

theorem handle_node_current_file (st : ReporterState) (msgid : String) (node : NodeNG) :
    (handle_node st msgid node).current_file = st.current_file := by
  simp only [handle_node]
  cases (st.messages st.current_file).getLast? with
  | none => rfl
  | some last =>
    by_cases h : last.msg_id = msgid <;> simp [h]

theorem render_message_delegates (m : Msg) (n n2 : NodeNG) (s : String) (lines : List String) :
    render_message (Msg.newMessage m n s) n2 lines = render_message m n2 lines := rfl

theorem handleNodeSnippet_delegates (st : ReporterState) (m : Msg) (n node : NodeNG) (s : String) :
    handleNodeSnippet st (Msg.newMessage m n s) node = handleNodeSnippet st m node := rfl

theorem handleNodeSnippet_congr (st st' : ReporterState) (h : st'.source_lines = st.source_lines)
    (m : Msg) (node : NodeNG) :
    handleNodeSnippet st' m node = handleNodeSnippet st m node := by
  simp [handleNodeSnippet, build_snippet, h]

/-! ### Test fixtures (concrete inputs used by witnesses and counterexamples) -/

/-- A concrete node. -/
def n0 : NodeNG := ⟨0⟩

/-- A concrete error-bucket diagnostic (`undefined-variable`). -/
def undefinedVarMsg : Msg :=
  .base
    { msg_id := "E0602", symbol := "undefined-variable", msg := "Undefined variable x"
      path := "f.py", line := 3, column := 4, end_line := some 3, end_column := some 12 }

/-- A concrete style-bucket diagnostic (`trailing-whitespace`, absent from
`ERROR_CHECKS`). -/
def trailingWsMsg : Msg :=
  .base
    { msg_id := "C0303", symbol := "trailing-whitespace", msg := "Trailing whitespace"
      path := "f.py", line := 7, column := 0, end_line := none, end_column := none }

/-- A concrete diagnostic whose symbol is in `NO_SNIPPET`. -/
def invalidNameMsg : Msg :=
  .base
    { msg_id := "C0103", symbol := "invalid-name", msg := "Invalid name zz"
      path := "f.py", line := 1, column := 0, end_line := none, end_column := none }

/-- A reporter state for `f.py` holding the single diagnostic
`undefinedVarMsg`. -/
def oneMsgState : ReporterState :=
  { messages := updateMap (fun _ => []) "f.py" [undefinedVarMsg]
    source_lines := [], module_name := "m", current_file := "f.py" }

/-- A reporter state for `f.py` holding the single diagnostic
`invalidNameMsg`. -/
def noSnippetState : ReporterState :=
  { messages := updateMap (fun _ => []) "f.py" [invalidNameMsg]
    source_lines := ["zz = 1"], module_name := "m", current_file := "f.py" }

/-! ### C8 -/

/-- C8: `handle_node` is a no-op on the aggregator state when there is nothing
to augment: when the current file's message list is empty or its last
message's rule identifier differs from the supplied one, the state — in
particular every file's message list — is unchanged. -/
theorem handle_node_frame (st : ReporterState) (msgid : String) (node : NodeNG)
    (h : ∀ last, (st.messages st.current_file).getLast? = some last → last.msg_id ≠ msgid) :
    handle_node st msgid node = st ∧
    ∀ f, (handle_node st msgid node).messages f = st.messages f := by
  have heq := handle_node_eq_of_no_match st msgid node h
  exact ⟨heq, fun f => by rw [heq]⟩

/-- Witness for C8 at concrete inputs: an empty current list
(`initReporter`) and a mismatched rule on `oneMsgState`. -/
theorem handle_node_frame_witness :
    (handle_node initReporter "E0602" n0).messages "f.py" = initReporter.messages "f.py" ∧
    (handle_node oneMsgState "C0303" n0).messages "f.py" = oneMsgState.messages "f.py" := by
  constructor
  · exact (handle_node_frame initReporter "E0602" n0 (by decide)).2 "f.py"
  · exact (handle_node_frame oneMsgState "C0303" n0 (by decide)).2 "f.py"

/-! ### C5 -/

/-- C5: when `handle_node` augments the most recent matching diagnostic and
that diagnostic's symbol is in the `NO_SNIPPET` set, or its message text
begins with the module-level-error sentinel "Invalid module", the snippet it
attaches is the empty string. -/
theorem handle_node_empty_snippet (st : ReporterState) (msgid : String) (node : NodeNG)
    (last : Msg) (h1 : (st.messages st.current_file).getLast? = some last)
    (h2 : last.msg_id = msgid)
    (h3 : NO_SNIPPET.contains last.symbol = true ∨ pyStartsWith last.msg "Invalid module" = true) :
    ((handle_node st msgid node).messages st.current_file).getLast? =
      some (Msg.newMessage last node "") := by
  rw [handle_node_eq_of_match st msgid node last h1 h2]
  have hcond : (NO_SNIPPET.contains last.symbol || pyStartsWith last.msg "Invalid module") = true := by
    rcases h3 with h3 | h3
    · rw [h3, Bool.true_or]
    · rw [h3, Bool.or_true]
  have hsnip : handleNodeSnippet st last node = "" := by
    simp only [handleNodeSnippet, hcond, if_true]
  simp [updateMap_self, hsnip]

/-- Witness for C5 at a concrete input: the `invalid-name` diagnostic of
`noSnippetState` is augmented with an empty snippet. -/
theorem handle_node_empty_snippet_witness :
    ((handle_node noSnippetState "C0103" n0).messages "f.py").getLast? =
      some (Msg.newMessage invalidNameMsg n0 "") := by
  exact handle_node_empty_snippet noSnippetState "C0103" n0 invalidNameMsg
    (by decide) (by decide) (Or.inl (by decide))

/-! ### C1 -/

/-- Counterexample to C1 as stated: on a file with one diagnostic matching the
rule, a second consecutive `handle_node` call is not "silently dropped" and is
not a no-op on the message list's contents — it replaces the already-augmented
last message with a doubly-wrapped `NewMessage`, so the list after the second
call differs from the list after the first. -/
theorem handle_node_second_call_changes_list :
    (handle_node (handle_node oneMsgState "E0602" n0) "E0602" n0).messages "f.py" ≠
      (handle_node oneMsgState "E0602" n0).messages "f.py" := by decide

/-- C1 (amended): `handle_node` attaches the node and snippet only to the most
recently appended message whose rule identifier matches (replacing it in
place); but when the last matching message is already augmented a second call
is not dropped: it re-wraps that message in a further `NewMessage` layer,
re-rendering the same snippet value.  The list's length is unchanged by the
second call and the outer wrapper carries the same rule identifier and the
same snippet string, but the stored element itself changes (double wrap). -/
theorem handle_node_augment_once (st : ReporterState) (msgid : String) (node : NodeNG)
    (last : Msg) (h1 : (st.messages st.current_file).getLast? = some last)
    (h2 : last.msg_id = msgid) :
    (handle_node st msgid node).messages st.current_file =
      (st.messages st.current_file).dropLast
        ++ [Msg.newMessage last node (handleNodeSnippet st last node)] ∧
    (handle_node (handle_node st msgid node) msgid node).messages st.current_file =
      (st.messages st.current_file).dropLast
        ++ [Msg.newMessage (Msg.newMessage last node (handleNodeSnippet st last node)) node
              (handleNodeSnippet st last node)] ∧
    ((handle_node (handle_node st msgid node) msgid node).messages st.current_file).length =
      ((handle_node st msgid node).messages st.current_file).length := by
  have e1 := handle_node_eq_of_match st msgid node last h1 h2
  have hfst : (handle_node st msgid node).messages st.current_file =
      (st.messages st.current_file).dropLast
        ++ [Msg.newMessage last node (handleNodeSnippet st last node)] := by
    rw [e1]; exact updateMap_self _ _ _
  set st1 := handle_node st msgid node with hst1
  have hcf : st1.current_file = st.current_file := handle_node_current_file st msgid node
  have hsl : st1.source_lines = st.source_lines := handle_node_source_lines st msgid node
  have h1b : (st1.messages st1.current_file).getLast? =
      some (Msg.newMessage last node (handleNodeSnippet st last node)) := by
    rw [hcf, hfst]
    exact List.getLast?_concat _
  have h2b : (Msg.newMessage last node (handleNodeSnippet st last node)).msg_id = msgid := h2
  have e2 := handle_node_eq_of_match st1 msgid node _ h1b h2b
  have hsnip2 : handleNodeSnippet st1 (Msg.newMessage last node (handleNodeSnippet st last node))
      node = handleNodeSnippet st last node := by
    rw [handleNodeSnippet_delegates]
    exact handleNodeSnippet_congr st st1 hsl last node
  have hdrop : (st1.messages st1.current_file).dropLast =
      (st.messages st.current_file).dropLast := by
    rw [hcf, hfst, List.dropLast_concat]
  have hsnd : (handle_node st1 msgid node).messages st.current_file =
      (st.messages st.current_file).dropLast
        ++ [Msg.newMessage (Msg.newMessage last node (handleNodeSnippet st last node)) node
              (handleNodeSnippet st last node)] := by
    rw [e2]
    show updateMap st1.messages st1.current_file _ st.current_file = _
    rw [hsnip2, hdrop]
    simp [updateMap, hcf]
  refine ⟨hfst, hsnd, ?_⟩
  rw [hsnd, hfst]
  simp

/-- Witness for C1's amended theorem at a concrete input: `oneMsgState` with
its single matching `undefined-variable` diagnostic. -/
theorem handle_node_augment_once_witness :
    (handle_node oneMsgState "E0602" n0).messages "f.py" =
      [Msg.newMessage undefinedVarMsg n0 ""] ∧
    (handle_node (handle_node oneMsgState "E0602" n0) "E0602" n0).messages "f.py" =
      [Msg.newMessage (Msg.newMessage undefinedVarMsg n0 "") n0 ""] := by
  have h := handle_node_augment_once oneMsgState "E0602" n0 undefinedVarMsg
    (by decide) (by decide)
  exact ⟨h.1.trans (by decide), h.2.1.trans (by decide)⟩

/-! ### C2 -/

theorem lookupD_appendGroup (g : List (String × List Msg)) (k k' : String) (m : Msg) :
    lookupD (appendGroup g k' m) k =
      if k' = k then lookupD g k ++ [m] else lookupD g k := by
  induction g with
  | nil =>
    by_cases h : k' = k <;> simp [appendGroup, lookupD, h]
  | cons a rest ih =>
    obtain ⟨ka, la⟩ := a
    by_cases h1 : ka = k'
    · subst h1
      by_cases h2 : ka = k <;> simp [appendGroup, lookupD, h2]
    · by_cases h2 : ka = k
      · subst h2
        simp [appendGroup, lookupD, h1, Ne.symm h1]
      · simp [appendGroup, lookupD, h1, h2, ih]

theorem group_messages_foldl (msgs : List Msg)
    (acc : List (String × List Msg) × List (String × List Msg)) (k : String) :
    lookupD
        (msgs.foldl
          (fun acc msg =>
            if errorCheck msg then (appendGroup acc.1 msg.msg_id msg, acc.2)
            else (acc.1, appendGroup acc.2 msg.msg_id msg))
          acc).1 k =
      lookupD acc.1 k ++ msgs.filter (fun m => errorCheck m && m.msg_id == k) ∧
    lookupD
        (msgs.foldl
          (fun acc msg =>
            if errorCheck msg then (appendGroup acc.1 msg.msg_id msg, acc.2)
            else (acc.1, appendGroup acc.2 msg.msg_id msg))
          acc).2 k =
      lookupD acc.2 k ++ msgs.filter (fun m => !errorCheck m && m.msg_id == k) := by
  induction msgs generalizing acc with
  | nil => simp
  | cons m rest ih =>
    simp only [List.foldl_cons, List.filter_cons]
    by_cases he : errorCheck m
    · by_cases hk : m.msg_id = k
      · simpa [he, hk, lookupD_appendGroup] using ih (appendGroup acc.1 m.msg_id m, acc.2)
      · have hbk : (m.msg_id == k) = false := by simp [hk]
        simpa [he, hbk, lookupD_appendGroup, hk] using ih (appendGroup acc.1 m.msg_id m, acc.2)
    · have hbe : errorCheck m = false := by simpa using he
      by_cases hk : m.msg_id = k
      · simpa [hbe, hk, lookupD_appendGroup] using ih (acc.1, appendGroup acc.2 m.msg_id m)
      · have hbk : (m.msg_id == k) = false := by simp [hk]
        simpa [hbe, hbk, lookupD_appendGroup, hk] using ih (acc.1, appendGroup acc.2 m.msg_id m)

/-- C2: `group_messages` is a total, stable partition.  For every rule key,
the error bucket's list is exactly the input filtered to the messages whose
`msg_id` or `symbol` lies in `ERROR_CHECKS` and whose `msg_id` is that key
(insertion order preserved), the style bucket's list is exactly the input
filtered to the remaining messages with that key (a rule identifier absent
from `ERROR_CHECKS` thus defaults to the style bucket and is never dropped),
and every input message lands in exactly one bucket, under its own `msg_id`
key. -/
theorem group_messages_partition (msgs : List Msg) (k : String) :
    lookupD (group_messages msgs).1 k =
      msgs.filter (fun m => errorCheck m && m.msg_id == k) ∧
    lookupD (group_messages msgs).2 k =
      msgs.filter (fun m => !errorCheck m && m.msg_id == k) ∧
    ∀ m ∈ msgs,
      (errorCheck m = true →
        m ∈ lookupD (group_messages msgs).1 m.msg_id ∧
        m ∉ lookupD (group_messages msgs).2 m.msg_id) ∧
      (errorCheck m = false →
        m ∉ lookupD (group_messages msgs).1 m.msg_id ∧
        m ∈ lookupD (group_messages msgs).2 m.msg_id) := by
  have h := group_messages_foldl msgs ([], []) k
  refine ⟨by simpa [group_messages] using h.1, by simpa [group_messages] using h.2, ?_⟩
  intro m hm
  have h1 := (group_messages_foldl msgs ([], []) m.msg_id).1
  have h2 := (group_messages_foldl msgs ([], []) m.msg_id).2
  constructor
  · intro he
    constructor
    · rw [show (group_messages msgs).1 = (msgs.foldl _ ([], [])).1 from rfl] at *
      rw [h1]
      simp [List.mem_filter, hm, he]
    · rw [show (group_messages msgs).2 = (msgs.foldl _ ([], [])).2 from rfl] at *
      rw [h2]
      simp [lookupD, List.mem_filter, he]
  · intro he
    constructor
    · rw [show (group_messages msgs).1 = (msgs.foldl _ ([], [])).1 from rfl] at *
      rw [h1]
      simp [lookupD, List.mem_filter, he]
    · rw [show (group_messages msgs).2 = (msgs.foldl _ ([], [])).2 from rfl] at *
      rw [h2]
      simp [List.mem_filter, hm, he]

/-- Witness for C2 at a concrete input: one error-bucket and one
style-bucket diagnostic. -/
theorem group_messages_partition_witness :
    lookupD (group_messages [undefinedVarMsg, trailingWsMsg]).1 "E0602" = [undefinedVarMsg] ∧
    lookupD (group_messages [undefinedVarMsg, trailingWsMsg]).2 "C0303" = [trailingWsMsg] ∧
    undefinedVarMsg ∈
      lookupD (group_messages [undefinedVarMsg, trailingWsMsg]).1 undefinedVarMsg.msg_id := by
  refine ⟨(group_messages_partition [undefinedVarMsg, trailingWsMsg] "E0602").1.trans (by decide),
    (group_messages_partition [undefinedVarMsg, trailingWsMsg] "C0303").2.1.trans (by decide),
    ?_⟩
  exact (((group_messages_partition [undefinedVarMsg, trailingWsMsg] "E0602").2.2
    undefinedVarMsg (by decide)).1 (by decide)).1

/-! ### C3 -/

theorem loopMessages_inf (i : Nat) (msgs : List Msg) :
    loopMessages .inf i msgs = msgs := by
  induction msgs generalizing i with
  | nil => rfl
  | cons a rest ih => simp [loopMessages, breakCond, ih]

theorem loopMessages_fin_zero (i : Nat) (msgs : List Msg) :
    loopMessages (.fin 0) i msgs = msgs := by
  induction msgs generalizing i with
  | nil => rfl
  | cons a rest ih => simp [loopMessages, breakCond, ih]

theorem loopMessages_fin (m : Nat) (hm : m ≠ 0) (i : Nat) (hi : i ≤ m) (msgs : List Msg) :
    loopMessages (.fin m) i msgs = msgs.take (m - i) := by
  induction msgs generalizing i with
  | nil => simp [loopMessages]
  | cons a rest ih =>
    by_cases h : i = m
    · subst h
      simp [loopMessages, breakCond, hm]
    · have hbreak : breakCond (.fin m) i = false := by
        simp [breakCond, h]
      have hstep : m - i = (m - (i + 1)) + 1 := by omega
      rw [loopMessages, hbreak]
      simp only [Bool.false_eq_true, if_false]
      rw [ih (i + 1) (by omega), hstep, List.take_succ_cons]

/-- C3: truncation law for one rule group.  Writing `N` for the number of
occurrences and `M` for the configured `pyta_number_of_messages`: if
`0 < M < N`, the occurrence loop of `_colour_messages_by_type` renders exactly
the first `M` occurrences and the group-header note condition fires (naming
`M`); if `M ≥ N` (including the strict-less-than boundary `N = M`), or `M` is
0, or `M` is infinity, all `N` occurrences are rendered and no note
appears. -/
theorem truncation_law (mx : MaxMessages) (msgs : List Msg) :
    (∀ m, mx = .fin m → 0 < m → m < msgs.length →
      loopMessages mx 0 msgs = msgs.take m ∧
      (loopMessages mx 0 msgs).length = m ∧
      noteCond mx msgs.length = true) ∧
    (∀ m, mx = .fin m → 0 < m → msgs.length ≤ m →
      loopMessages mx 0 msgs = msgs ∧
      noteCond mx msgs.length = false) ∧
    ((mx = .fin 0 ∨ mx = .inf) →
      loopMessages mx 0 msgs = msgs ∧
      noteCond mx msgs.length = false) := by
  refine ⟨?_, ?_, ?_⟩
  · rintro m rfl hpos hlt
    have h := loopMessages_fin m (by omega) 0 (by omega) msgs
    rw [Nat.sub_zero] at h
    refine ⟨h, ?_, ?_⟩
    · rw [h, List.length_take]
      omega
    · simp [noteCond, hlt]
      omega
  · rintro m rfl hpos hle
    have h := loopMessages_fin m (by omega) 0 (by omega) msgs
    rw [Nat.sub_zero] at h
    refine ⟨?_, ?_⟩
    · rw [h]
      exact List.take_of_length_le hle
    · simp [noteCond]
      omega
  · rintro (rfl | rfl)
    · exact ⟨loopMessages_fin_zero 0 msgs, by simp [noteCond]⟩
    · exact ⟨loopMessages_inf 0 msgs, by simp [noteCond]⟩

/-- Witness for C3 at concrete inputs: three occurrences with maxima 2
(truncated, note fires), 3 (boundary, no note) and infinity (no note). -/
theorem truncation_law_witness :
    loopMessages (.fin 2) 0 [undefinedVarMsg, undefinedVarMsg, undefinedVarMsg] =
        [undefinedVarMsg, undefinedVarMsg] ∧
    noteCond (.fin 2) 3 = true ∧
    loopMessages (.fin 3) 0 [undefinedVarMsg, undefinedVarMsg, undefinedVarMsg] =
        [undefinedVarMsg, undefinedVarMsg, undefinedVarMsg] ∧
    noteCond (.fin 3) 3 = false ∧
    loopMessages .inf 0 [undefinedVarMsg, undefinedVarMsg, undefinedVarMsg] =
        [undefinedVarMsg, undefinedVarMsg, undefinedVarMsg] ∧
    noteCond .inf 3 = false := by
  have h1 := (truncation_law (.fin 2) [undefinedVarMsg, undefinedVarMsg, undefinedVarMsg]).1
    2 rfl (by omega) (by simp)
  have h2 := (truncation_law (.fin 3) [undefinedVarMsg, undefinedVarMsg, undefinedVarMsg]).2.1
    3 rfl (by omega) (by simp)
  have h3 := (truncation_law .inf [undefinedVarMsg, undefinedVarMsg, undefinedVarMsg]).2.2
    (Or.inr rfl)
  exact ⟨h1.1.trans (by decide), h1.2.2, h2.1, h2.2, h3.1, h3.2⟩

/-! ### C10 -/

/-- C10: augmentation preserves every original diagnostic field.  Every
delegated attribute read through a `NewMessage` wrapper equals the wrapped
message's attribute; hence the bucket test of `group_messages` agrees on the
augmented and the unaugmented message and `group_messages` files the augmented
message in the same bucket under the same `msg_id` key; and `to_dict` reports
`line_end` / `column_end` equal to the original `end_line` / `end_column`. -/
theorem newMessage_delegation (m : Msg) (n : NodeNG) (s : String) (message : Message) :
    (Msg.newMessage m n s).msg_id = m.msg_id ∧
    (Msg.newMessage m n s).symbol = m.symbol ∧
    (Msg.newMessage m n s).msg = m.msg ∧
    (Msg.newMessage m n s).path = m.path ∧
    (Msg.newMessage m n s).line = m.line ∧
    (Msg.newMessage m n s).column = m.column ∧
    (Msg.newMessage m n s).end_line = m.end_line ∧
    (Msg.newMessage m n s).end_column = m.end_column ∧
    errorCheck (Msg.newMessage m n s) = errorCheck m ∧
    (errorCheck m = true →
      group_messages [Msg.newMessage m n s] =
        ([(m.msg_id, [Msg.newMessage m n s])], [])) ∧
    (errorCheck m = false →
      group_messages [Msg.newMessage m n s] =
        ([], [(m.msg_id, [Msg.newMessage m n s])])) ∧
    (to_dict message s).line_end = message.end_line ∧
    (to_dict message s).column_end = message.end_column := by
  refine ⟨rfl, rfl, rfl, rfl, rfl, rfl, rfl, rfl, rfl, ?_, ?_, rfl, rfl⟩
  · intro he
    have he' : errorCheck (Msg.newMessage m n s) = true := he
    simp [group_messages, appendGroup, he', Msg.msg_id]
  · intro he
    have he' : errorCheck (Msg.newMessage m n s) = false := he
    simp [group_messages, appendGroup, he', Msg.msg_id]

/-- Witness for C10 at concrete inputs: the augmented `undefined-variable`
message stays in the error bucket under its rule key, and `to_dict`
duplicates the end position. -/
theorem newMessage_delegation_witness :
    (Msg.newMessage undefinedVarMsg n0 "snippet").msg_id = undefinedVarMsg.msg_id ∧
    group_messages [Msg.newMessage undefinedVarMsg n0 "snippet"] =
      ([("E0602", [Msg.newMessage undefinedVarMsg n0 "snippet"])], []) ∧
    (to_dict
        { msg_id := "E0602", symbol := "undefined-variable", msg := "Undefined variable x"
          path := "f.py", line := 3, column := 4, end_line := some 3, end_column := some 12 }
        "snippet").line_end = some 3 := by
  have h := newMessage_delegation undefinedVarMsg n0 "snippet"
    { msg_id := "E0602", symbol := "undefined-variable", msg := "Undefined variable x"
      path := "f.py", line := 3, column := 4, end_line := some 3, end_column := some 12 }
  exact ⟨h.1, (h.2.2.2.2.2.2.2.2.2.1 (by decide)).trans (by decide), h.2.2.2.2.2.2.2.2.2.2.2.1⟩

/-! ### C7 -/

theorem str_assoc : ∀ a b c : String, (a ++ b) ++ c = a ++ (b ++ c)
  | ⟨a⟩, ⟨b⟩, ⟨c⟩ => congrArg String.mk (List.append_assoc a b c)

theorem str_append_empty : ∀ a : String, a ++ "" = a
  | ⟨a⟩ => congrArg String.mk (List.append_nil a)

/-- C7: report structure of `print_messages`.  The report always opens with
the title line, the timestamp, and the blocking-errors section under its
fixed title; the style section, under its fixed title, is appended if and
only if the level is "all"; a section whose bucket renders to the empty
string gets the fixed no-problems message instead.  An empty bucket renders
to the empty string, so an empty diagnostic list yields only the no-problems
message(s) and no rule groups. -/
theorem print_messages_sections (st : ReporterState) (mx : MaxMessages)
    (dt level : String) :
    (print_messages st mx dt level =
      "PyTA Report for: " ++ st.current_file ++ "\n" ++ dt ++ "\n"
        ++ code_err_title ++ "\n"
        ++ (if colour_messages_by_type mx (group_messages (st.messages st.current_file)).1 ≠ ""
            then colour_messages_by_type mx (group_messages (st.messages st.current_file)).1
            else no_err_message)
        ++ (if level = "all" then
              style_err_title ++ "\n"
                ++ (if colour_messages_by_type mx
                        (group_messages (st.messages st.current_file)).2 ≠ ""
                    then colour_messages_by_type mx
                        (group_messages (st.messages st.current_file)).2
                    else no_err_message)
            else "")) ∧
    colour_messages_by_type mx [] = "" ∧
    (st.messages st.current_file = [] →
      print_messages st mx dt level =
        "PyTA Report for: " ++ st.current_file ++ "\n" ++ dt ++ "\n"
          ++ code_err_title ++ "\n" ++ no_err_message
          ++ (if level = "all" then style_err_title ++ "\n" ++ no_err_message else "")) := by
  have hmain : print_messages st mx dt level =
      "PyTA Report for: " ++ st.current_file ++ "\n" ++ dt ++ "\n"
        ++ code_err_title ++ "\n"
        ++ (if colour_messages_by_type mx (group_messages (st.messages st.current_file)).1 ≠ ""
            then colour_messages_by_type mx (group_messages (st.messages st.current_file)).1
            else no_err_message)
        ++ (if level = "all" then
              style_err_title ++ "\n"
                ++ (if colour_messages_by_type mx
                        (group_messages (st.messages st.current_file)).2 ≠ ""
                    then colour_messages_by_type mx
                        (group_messages (st.messages st.current_file)).2
                    else no_err_message)
            else "") := by
    by_cases hl : level = "all" <;>
      simp [print_messages, colourify, hl, str_assoc, str_append_empty]
  refine ⟨hmain, rfl, ?_⟩
  intro hmsgs
  rw [hmain, hmsgs]
  show _ ++ (if ("" : String) ≠ "" then _ else _) ++ _ = _
  simp only [ne_eq, not_true_eq_false, if_false]
  have hg : colour_messages_by_type mx (group_messages ([] : List Msg)).2 = "" := rfl
  by_cases hl : level = "all" <;> simp [hl, hg]

/-- A reporter state with no diagnostics for `f.py`. -/
def emptyState : ReporterState :=
  { messages := fun _ => [], source_lines := [], module_name := "", current_file := "f.py" }

set_option maxRecDepth 8000 in
/-- Witness for C7 at a concrete input: the empty diagnostic list renders
only the titles and no-problems messages. -/
theorem print_messages_sections_witness :
    emptyState.messages emptyState.current_file = [] ∧
    print_messages emptyState .inf "Generated" "all" =
      "PyTA Report for: f.py\nGenerated\n=== Code errors/forbidden usage (fix: high priority) ===\nNo problems detected, good job!\n\n=== Style/convention errors (fix: before submission) ===\nNo problems detected, good job!\n\n" := by
  refine ⟨rfl, ?_⟩
  have h := (print_messages_sections emptyState .inf "Generated" "all").2.2 rfl
  exact h.trans (by decide)

/-! ### C6 -/

theorem errStartCol_eq (sl : Slice) : errStartCol sl = sl.start.getD 0 := by
  obtain ⟨so, sp⟩ := sl
  cases so with
  | none => rfl
  | some s =>
    by_cases h : s = 0 <;> simp [errStartCol, h]

theorem toList_eq_data (s : String) : s.toList = s.data := rfl

theorem length_eq_data (s : String) : s.length = s.data.length := rfl

theorem mk_data (l : List Char) : (String.mk l).data = l := rfl

theorem append_data (a b : String) : (a ++ b).data = a.data ++ b.data := rfl

/-- C6: ERROR-line slice resolution is total and defaults as specified.  The
rendering functions are total Lean functions (Python slicing with
non-negative bounds never raises); an absent slice start resolves to 0, an
absent slice end resolves to the full line length (both for the highlighted
span `text[slice_]` and for the post-span cut `end_col`), an out-of-range end
is clamped to the line length, a slice with start `s` and absent end
highlights exactly the characters from `s` to the end of the line, and an
ERROR line always renders as gutter, optional pre-span text, highlighted
span, optional post-span text, and a line break. -/
theorem error_slice_defaults (text : String) (sl : Slice) :
    (sl.start = none → errStartCol sl = 0) ∧
    (sl.stop = none → errEndCol sl text = text.length ∧
      pySliceOpt text sl = pySlice text (sl.start.getD 0) text.length) ∧
    (∀ e, sl.stop = some e → text.length ≤ e →
      pySliceOpt text sl = pySliceOpt text ⟨sl.start, some text.length⟩ ∧
      pyDrop text e = "") ∧
    (∀ s, sl.start = some s → sl.stop = none →
      pySliceOpt text sl = pyDrop text s) ∧
    (∀ lineno, addLine lineno .ERROR sl text =
      addLineNumber lineno .ERROR
        ++ (if pyTake text (errStartCol sl) ≠ "" then pyTake text (errStartCol sl) else "")
        ++ colourify "highlight" (pySliceOpt text sl)
        ++ (if pyDrop text (errEndCol sl text) ≠ "" then pyDrop text (errEndCol sl text) else "")
        ++ "\n") := by
  obtain ⟨so, sp⟩ := sl
  refine ⟨?_, ?_, ?_, ?_, ?_⟩
  · intro h
    rw [show so = none from h]
    rfl
  · intro h
    rw [show sp = none from h]
    exact ⟨rfl, rfl⟩
  · intro e he hle
    constructor
    · rw [show sp = some e from he]
      simp only [pySliceOpt, pySlice, Option.getD_some]
      have h1 : text.toList.take e = text.toList := by
        apply List.take_of_length_le
        rw [toList_eq_data, ← length_eq_data]
        exact hle
      have h2 : text.toList.take text.length = text.toList := by
        rw [toList_eq_data, length_eq_data]
        exact List.take_length _
      rw [h1, h2]
    · simp only [pyDrop]
      have h1 : text.toList.drop e = [] := by
        apply List.drop_eq_nil_of_le
        rw [toList_eq_data, ← length_eq_data]
        exact hle
      rw [h1]
  · intro s hso hsp
    rw [show so = some s from hso, show sp = none from hsp]
    simp only [pySliceOpt, pySlice, pyDrop, Option.getD_some, Option.getD_none]
    have h2 : text.toList.take text.length = text.toList := by
      rw [toList_eq_data, length_eq_data]
      exact List.take_length _
    rw [h2]
  · intro lineno
    simp only [addLine, colourify]

/-- Witness for C6 at the spec's concrete scenario: a 10-character line with
slice start 5 and no end highlights exactly the characters from index 5 to
10. -/
theorem error_slice_defaults_witness :
    pySliceOpt "abcdefghij" ⟨some 5, none⟩ = pyDrop "abcdefghij" 5 ∧
    pyDrop "abcdefghij" 5 = "fghij" ∧
    errEndCol ⟨some 5, none⟩ "abcdefghij" = 10 := by
  refine ⟨?_, by decide, ?_⟩
  · exact (error_slice_defaults "abcdefghij" ⟨some 5, none⟩).2.2.2.1 5 rfl rfl
  · exact ((error_slice_defaults "abcdefghij" ⟨some 5, none⟩).2.1 rfl).1

/-! ### C9 -/

theorem take_slice_drop (l : List Char) (s e : Nat) (hs : s ≤ e) :
    l.take s ++ ((l.take e).drop s ++ l.drop e) = l := by
  rw [show l.take s = (l.take e).take s by rw [List.take_take, Nat.min_eq_left hs]]
  rw [← List.append_assoc, List.take_append_drop, List.take_append_drop]

/-- Counterexample to C9 as stated: the slice with start 0 and end 0 on the
two-character line "ab" satisfies `0 ≤ start ≤ end ≤ len`, yet the rendered
ERROR line drops the line's text entirely — Python's `end_col = slice_.stop
or len(text)` treats the falsy end bound 0 as absent, so the post-span cut
starts at the full length while the highlighted span `text[0:0]` is empty. -/
theorem error_line_zero_stop_cex :
    (0 : Nat) ≤ 0 ∧ (0 : Nat) ≤ "ab".length ∧
    addLine (some 1) LineType.ERROR ⟨some 0, some 0⟩ "ab" =
      addLineNumber (some 1) LineType.ERROR ++ "\n" ∧
    addLine (some 1) LineType.ERROR ⟨some 0, some 0⟩ "ab" ≠
      addLineNumber (some 1) LineType.ERROR ++ "ab" ++ "\n" := by
  exact ⟨by decide, by decide, by decide, by decide⟩

/-- C9 (amended): ERROR-line rendering preserves the line's text for every
slice whose bounds satisfy `0 ≤ start ≤ end ≤ len(text)` — provided the
slice's end bound is not the literal 0 (which Python's `or` treats as absent)
or the line is empty.  Under identity colouring the body of the rendered
ERROR line is pre-span text ++ sliced span ++ post-span text, and equals the
original line text exactly. -/
theorem error_line_preserves_text (lineno : Option Nat) (sl : Slice) (text : String)
    (hs : sl.start.getD 0 ≤ sl.stop.getD text.length)
    (he : sl.stop.getD text.length ≤ text.length)
    (hz : sl.stop ≠ some 0 ∨ text = "") :
    addLine lineno .ERROR sl text = addLineNumber lineno .ERROR ++ text ++ "\n" := by
  have hif : ∀ x : String, (if x ≠ "" then x else "") = x := by
    intro x
    by_cases h : x = "" <;> simp [h]
  simp only [addLine, colourify]
  simp only [hif]
  apply String.ext
  simp only [append_data, pyTake, pySliceOpt, pySlice, pyDrop, mk_data, toList_eq_data,
    List.append_assoc]
  congr 1
  obtain ⟨so, sp⟩ := sl
  have hstart : errStartCol ⟨so, sp⟩ = so.getD 0 := errStartCol_eq _
  rw [hstart]
  cases sp with
  | none =>
    simp only [Option.getD_none] at hs he ⊢
    have hcol : errEndCol ⟨so, none⟩ text = text.length := rfl
    rw [hcol, length_eq_data, List.take_length, List.drop_length, List.nil_append,
      ← List.append_assoc, List.take_append_drop]
  | some e =>
    rcases hz with hz | hz
    · have hez : e ≠ 0 := fun h => hz (by rw [h])
      have hcol : errEndCol ⟨so, some e⟩ text = e := by
        simp [errEndCol, hez]
      rw [hcol]
      simp only [Option.getD_some] at hs he ⊢
      have hmain := take_slice_drop text.data (so.getD 0) e hs
      calc text.data.take (so.getD 0)
            ++ ((text.data.take e).drop (so.getD 0) ++ (text.data.drop e ++ "\n".data))
          = (text.data.take (so.getD 0)
              ++ ((text.data.take e).drop (so.getD 0) ++ text.data.drop e)) ++ "\n".data := by
            simp [List.append_assoc]
        _ = text.data ++ "\n".data := by rw [hmain]
    · subst hz
      simp

/-- Witness for C9's amended theorem at a concrete input: slice [1, 3) on the
four-character line "abcd". -/
theorem error_line_preserves_text_witness :
    addLine (some 2) LineType.ERROR ⟨some 1, some 3⟩ "abcd" =
      addLineNumber (some 2) LineType.ERROR ++ "abcd" ++ "\n" := by
  exact error_line_preserves_text (some 2) ⟨some 1, some 3⟩ "abcd"
    (by decide) (by decide) (Or.inl (by decide))

/-! ### C4 -/

/-- A file system on which every path is nonexistent and every read raises. -/
def failingFS : FileSystem :=
  { resolve := fun m => m
    pathExists := fun _ => false
    readLines := fun _ => .error () }

/-- A file system on which only `g.py` is readable. -/
def okFS : FileSystem :=
  { resolve := fun m => m
    pathExists := fun _ => false
    readLines := fun p => if p = "g.py" then .ok ["x = 1\r\n"] else .error () }

/-- Counterexample to C4 as stated: a file switch whose named source file is
unreadable does not "never fail": the unguarded `open` raises and the
exception propagates (an `Except.error` result), with `module_name` and
`current_file` already updated. -/
theorem on_set_current_module_raises_cex :
    on_set_current_module failingFS initReporter "mod" (some "g.py") =
      .error { initReporter with module_name := "mod", current_file := "g.py" } := rfl

/-- C4 (amended): if the path cannot be resolved (no `filepath` given and the
module name does not name an existing config path), the switch is a no-op
retaining the whole prior state; if a source file is named but unreadable or
undecodable, the switch raises — the exception propagates after
`module_name` and `current_file` were already set — but the `messages`
mapping and the prior source buffer are retained, so no recorded diagnostic
is lost; a successful read replaces the source buffer with the file's
line-ending-stripped lines. -/
theorem on_set_current_module_behavior (fs : FileSystem) (st : ReporterState)
    (module : String) (filepath : Option String) :
    (filepath = none → fs.pathExists (fs.resolve module) = false →
      on_set_current_module fs st module filepath = .ok st) ∧
    (∀ fp lines, filepath = some fp → fs.readLines fp = .ok lines →
      on_set_current_module fs st module filepath =
        .ok { st with module_name := module, current_file := fp
                      source_lines := lines.map rstripLineEnd }) ∧
    (∀ fp, filepath = some fp → fs.readLines fp = .error () →
      on_set_current_module fs st module filepath =
        .error { st with module_name := module, current_file := fp } ∧
      (∀ f, ({ st with module_name := module, current_file := fp } : ReporterState).messages f
          = st.messages f) ∧
      ({ st with module_name := module, current_file := fp} : ReporterState).source_lines
        = st.source_lines) := by
  refine ⟨?_, ?_, ?_⟩
  · rintro rfl hex
    simp [on_set_current_module, hex]
  · rintro fp lines rfl hread
    simp [on_set_current_module, hread]
  · rintro fp rfl hread
    refine ⟨?_, fun f => rfl, rfl⟩
    simp [on_set_current_module, hread]

/-- Witness for C4's amended theorem at concrete inputs: an unresolvable
switch is a no-op, and an unreadable file raises while retaining messages
and buffer. -/
theorem on_set_current_module_behavior_witness :
    on_set_current_module failingFS oneMsgState "mod" none = .ok oneMsgState ∧
    on_set_current_module okFS oneMsgState "mod" (some "g.py") =
      .ok { oneMsgState with module_name := "mod", current_file := "g.py"
                             source_lines := ["x = 1"] } ∧
    on_set_current_module failingFS oneMsgState "mod" (some "h.py") =
      .error { oneMsgState with module_name := "mod", current_file := "h.py" } ∧
    ({ oneMsgState with module_name := "mod", current_file := "h.py" } : ReporterState).messages
        "f.py" = oneMsgState.messages "f.py" := by
  refine ⟨?_, ?_, ?_, rfl⟩
  · exact (on_set_current_module_behavior failingFS oneMsgState "mod" none).1 rfl rfl
  · have h := (on_set_current_module_behavior okFS oneMsgState "mod" (some "g.py")).2.1
      "g.py" ["x = 1\r\n"] rfl rfl
    rw [h]
    rfl
  · exact ((on_set_current_module_behavior failingFS oneMsgState "mod" (some "h.py")).2.2
      "h.py" rfl rfl).1
